import Mathlib

/-!
Shallow embedding of `src/main.py` (semopyGUI): a Streamlit app that loads a
dataset, lets the user pick/edit a SEM model-syntax buffer, runs the semopy
engine, and renders APA-style fit statistics and a normalized parameter table.

Modelling conventions:
* Python numbers are embedded as exact values: `int` as `ℤ`, and a finite
  `float` as the exact rational value of its IEEE-754 double (e.g. the
  Python literal `12.345` is `6949617174986097 / 2 ^ 49`); the non-finite
  floats have their own `StatValue` constructors. `format(x, ".2f")`/`".3f"`
  is embedded as rounding the exact value half-to-even (`pyFormatFixed`),
  which coincides with CPython on every double: CPython rounds the double's
  exact value to nearest, and its exact ties (dyadic values `m / 2 ^ (d+1)`)
  are also resolved to even.
* Python dicts appearing in the code are association lists (keys unique).
* Streamlit's rerun model: `st.session_state` is the `SessionState` record
  (the code uses exactly one key, `model_syntax`); one user interaction is an
  `Interaction` record; one top-to-bottom script execution is the function
  `main`, which returns the new session state, the rendered `Output`, and the
  number of fitting-engine invocations performed during that run.
* External collaborators (pandas/pyreadstat readers, the semopy engine) are
  parameters; a raised Python exception is an `Except.error`.
-/

/-- Python `str.lower()` (ASCII, as used on file extensions). -/
def pyLower (s : String) : String := String.mk (s.data.map Char.toLower)

/-- Python `str.upper()` (ASCII, as used in the unsupported-format message). -/
def pyUpper (s : String) : String := String.mk (s.data.map Char.toUpper)

/-- Python `name.split(".")[-1]`: the suffix after the last dot, or the whole
string when it has no dot. -/
def afterLastDot (s : String) : String :=
  String.mk ((s.data.reverse.takeWhile (fun ch => ch != Char.ofNat 46)).reverse)

/-- Python `str.strip()`: drop leading and trailing whitespace. -/
def pyStrip (s : String) : String :=
  String.mk (((s.data.dropWhile Char.isWhitespace).reverse.dropWhile Char.isWhitespace).reverse)

/-- A Python runtime value as it occurs in the statistics dict and the
parameter table: an int, a finite float (embedded as the exact rational
value of its IEEE-754 double), a non-finite float (`nan`, or `inf` with
`neg := true` for `-inf`), or a string. -/
inductive StatValue where
  | int (n : ℤ)
  | float (q : ℚ)
  | nan
  | inf (neg : Bool)
  | str (s : String)
deriving DecidableEq

/-- Python `d.get(k, default)` on a dict embedded as an association list. -/
def dictGet (d : List (String × StatValue)) (k : String) (dflt : StatValue) : StatValue :=
  ((d.find? (fun p => p.1 == k)).map (fun p => p.2)).getD dflt

/-- Round `|q| * 10 ^ d` to the nearest natural number, ties to even. This
is exactly what CPython fixed-point formatting does to the double's exact
value: for a double, a tie means `|q| = m / 2 ^ (d+1)` with `m` odd (the
only way a dyadic rational hits the half-way grid), and CPython resolves
those ties to even as well, so the two agree on every double. Computed with
integer arithmetic only: `q.num.natAbs * 10 ^ d` divided by `q.den` with
the remainder deciding the rounding direction. -/
def scaledNat (q : ℚ) (d : ℕ) : ℕ :=
  let N := q.num.natAbs * 10 ^ d
  let f := N / q.den
  let r := N % q.den
  if 2 * r < q.den then f
  else if q.den < 2 * r then f + 1
  else if f % 2 = 0 then f else f + 1

/-- The `d` decimal digits of `m` (for `m < 10 ^ d`), most significant first. -/
def fracDigitsPadded : ℕ → ℕ → List Char
  | 0, _ => []
  | d + 1, m => Char.ofNat (48 + (m / 10 ^ d) % 10) :: fracDigitsPadded d m

/-- Python `format(x, ".df")` on the exact-rational embedding of `x`:
fixed-point notation with exactly `d` fractional digits. -/
def pyFormatFixed (q : ℚ) (d : ℕ) : String :=
  let m : ℕ := scaledNat q d
  let ip : ℕ := m / 10 ^ d
  let fp : ℕ := m % 10 ^ d
  (if q.num < 0 then "-" else "") ++ toString ip ++
    (if d = 0 then "" else "." ++ String.mk (fracDigitsPadded d fp))

/-- Number of decimal digits after which the rational terminates (searched up
to 30; inputs in scope are terminating decimals). -/
def termDigits (q : ℚ) : ℕ :=
  ((List.range 30).find? (fun k => 10 ^ k % q.den == 0)).getD 30

/-- Python `str(x)` for a float embedded as a terminating decimal rational:
at least one fractional digit, no trailing zeros beyond the terminating
expansion. (Only the terminating-decimal case is ever asserted.) -/
def floatStr (q : ℚ) : String := pyFormatFixed q (max 1 (termDigits q))

/-- Python `format(value, fmt)` for the numeric values and the three format
specs (`".2f"`, `".3f"`, `""`) that `src/main.py` uses. -/
def pyFormatNum (q : ℚ) (isInt : Bool) (fmt : String) : String :=
  if fmt = ".2f" then pyFormatFixed q 2
  else if fmt = ".3f" then pyFormatFixed q 3
  else if isInt then toString q.num else floatStr q

/-- `safe_format` from `format_apa_statistics` (src/main.py lines 106-110):
format numeric values with `fmt`, return non-numeric values unchanged (the
returned value is then interpolated into an f-string, i.e. rendered). The
non-finite floats are numeric for the `isinstance` check, and CPython
renders them as `nan` / `inf` / `-inf` under every format spec used here. -/
def safe_format (value : StatValue) (fmt : String) : String :=
  match value with
  | .int n => pyFormatNum (n : ℚ) true fmt
  | .float q => pyFormatNum q false fmt
  | .nan => "nan"
  | .inf b => if b then "-inf" else "inf"
  | .str s => s

/-- Line 112: `safe_format(stat_dict.get('Chi-square', 'N/A'), ".2f")`. -/
def statChiSq (d : List (String × StatValue)) : String :=
  safe_format (dictGet d "Chi-square" (.str "N/A")) ".2f"

/-- Line 113: `safe_format(stat_dict.get('df', 'N/A'), "")`. -/
def statDf (d : List (String × StatValue)) : String :=
  safe_format (dictGet d "df" (.str "N/A")) ""

/-- Line 114: `safe_format(stat_dict.get('p-value', 'N/A'), ".3f")`. -/
def statPVal (d : List (String × StatValue)) : String :=
  safe_format (dictGet d "p-value" (.str "N/A")) ".3f"

/-- Line 115: `safe_format(stat_dict.get('CFI', 'N/A'), ".3f")`. -/
def statCFI (d : List (String × StatValue)) : String :=
  safe_format (dictGet d "CFI" (.str "N/A")) ".3f"

/-- Line 116: `safe_format(stat_dict.get('TLI', 'N/A'), ".3f")`. -/
def statTLI (d : List (String × StatValue)) : String :=
  safe_format (dictGet d "TLI" (.str "N/A")) ".3f"

/-- Line 117: `safe_format(stat_dict.get('RMSEA', 'N/A'), ".3f")`. -/
def statRMSEA (d : List (String × StatValue)) : String :=
  safe_format (dictGet d "RMSEA" (.str "N/A")) ".3f"

/-- Line 118: `safe_format(stat_dict.get('RMSEA Lower', 'N/A'), ".3f")`. -/
def statRMSEALower (d : List (String × StatValue)) : String :=
  safe_format (dictGet d "RMSEA Lower" (.str "N/A")) ".3f"

/-- Line 119: `safe_format(stat_dict.get('RMSEA Upper', 'N/A'), ".3f")`. -/
def statRMSEAUpper (d : List (String × StatValue)) : String :=
  safe_format (dictGet d "RMSEA Upper" (.str "N/A")) ".3f"

/-- `format_apa_statistics` (src/main.py lines 98-127): assemble the
APA-style statistics text from the eight resolved statistics. Total: it
never raises. -/
def format_apa_statistics (d : List (String × StatValue)) : String :=
  "Chi-square: " ++ statChiSq d ++ ", df = " ++ statDf d ++ ", p = " ++ statPVal d ++ "\n" ++
  "CFI: " ++ statCFI d ++ "\n" ++
  "TLI: " ++ statTLI d ++ "\n" ++
  "RMSEA: " ++ statRMSEA d ++ " (90% CI " ++ statRMSEALower d ++ " - " ++ statRMSEAUpper d ++ ")\n"

example : pyFormatFixed (mkRat 1235 100) 2 = "12.35" := by decide
example : pyFormatFixed (mkRat 15 1000) 3 = "0.015" := by decide
example : statDf [("df", .int 4)] = "4" := by decide
example : floatStr (mkRat 4 1) = "4.0" := by decide
example : statChiSq [("Chi-square", .float (mkRat 1235 100))] = "12.35" := by decide
example : pyFormatFixed (mkRat (-3) 2) 3 = "-1.500" := by decide
example : pyFormatFixed (mkRat 6949617174986097 562949953421312) 2 = "12.35" := by decide
example : pyFormatFixed (mkRat 1080863910568919 72057594037927936) 3 = "0.015" := by decide
example : pyFormatFixed (mkRat 97 8) 2 = "12.12" := by decide

/-- A pandas DataFrame, embedded as a header (the column labels) plus a list
of rows; the code only ever uses the column count and per-cell values, with
rectangularity (`∀ r ∈ rows, r.length = header.length`) a pandas invariant
carried as a hypothesis where needed. -/
structure DataFrame where
  header : List String
  rows : List (List StatValue)
deriving DecidableEq

/-- The canonical column list (src/main.py line 241). -/
def expected_columns : List String :=
  ["Parameter", "Estimate", "Std. Error", "z-value", "p-value", "CI Lower", "CI Upper"]

/-- Lines 242-253: rename the raw parameter table onto `expected_columns`,
truncating extra columns (`iloc` on the first seven) or appending `N/A`
columns when there are fewer. -/
def normalizeParams (df : DataFrame) : DataFrame :=
  if df.header.length = expected_columns.length then
    { header := expected_columns, rows := df.rows }
  else if df.header.length > expected_columns.length then
    { header := expected_columns,
      rows := df.rows.map (fun r => r.take expected_columns.length) }
  else
    { header := expected_columns,
      rows := df.rows.map
        (fun r => r ++ List.replicate (expected_columns.length - df.header.length)
          (StatValue.str "N/A")) }

/-- The attempt inside `safe_param_format` (line 258): Python
`"(format spec .3f)".format(val)` succeeds on numbers — finite floats and
ints give a three-decimal string, while the non-finite floats give
`nan` / `inf` / `-inf` without raising — and raises on a string argument. -/
def tryFormat3 : StatValue → Except String String
  | .int n => .ok (pyFormatFixed (n : ℚ) 3)
  | .float q => .ok (pyFormatFixed q 3)
  | .nan => .ok "nan"
  | .inf b => .ok (if b then "-inf" else "inf")
  | .str _ => .error "Unknown format code f for object of type str"

/-- `safe_param_format` (lines 256-260): try to format to three decimals;
on an exception return the value unchanged. -/
def safe_param_format (val : StatValue) : StatValue :=
  match tryFormat3 val with
  | .ok s => .str s
  | .error _ => val

/-- The six columns reformatted at line 264. -/
def numericCols : List String :=
  ["Estimate", "Std. Error", "z-value", "p-value", "CI Lower", "CI Upper"]

/-- One row of the `.apply` loop of lines 263-266: cells under a column
named in `numericCols` go through `safe_param_format`, others are kept. -/
def formatRow (header : List String) (row : List StatValue) : List StatValue :=
  (header.zip row).map (fun p => if numericCols.contains p.1 then safe_param_format p.2 else p.2)

/-- Lines 263-266: apply `safe_param_format` to every cell of the six
numeric columns (only columns present are touched, per the guard at 265). -/
def formatParams (df : DataFrame) : DataFrame :=
  { header := df.header, rows := df.rows.map (formatRow df.header) }

/-- A tabular dataset (opaque to the claims beyond existing; the code shows
`data.head()` and `data.columns`). -/
structure Dataset where
  columns : List String
deriving DecidableEq

/-- An uploaded file: a name and an opaque byte blob. -/
structure UploadedFile where
  name : String
  content : String
deriving DecidableEq

/-- The external pandas/pyreadstat readers used by `load_data`; a raised
Python exception is an `Except.error` carrying its message. `read_excel`
takes the engine argument of line 139; `read_sav` returns `(df, meta)`. -/
structure Loaders where
  read_csv : UploadedFile → Except String Dataset
  read_excel : UploadedFile → String → Except String Dataset
  read_sav : UploadedFile → Except String (Dataset × String)
  read_stata : UploadedFile → Except String Dataset
  read_json : UploadedFile → Except String Dataset

/-- Line 133: `uploaded_file.name.split(".")[-1].lower()`. -/
def fileExt (f : UploadedFile) : String :=
  pyLower (afterLastDot f.name)

/-- Result of one reader call, as `load_data` consumes it: the returned
dataset, or the `st.error` message from the `except` clause (line 152). -/
def handleRead (r : Except String Dataset) : Option Dataset × Option String :=
  match r with
  | .ok d => (some d, none)
  | .error e => (none, some ("Error loading data: " ++ e))

/-- `load_data` (src/main.py lines 129-153): dispatch on the lower-cased
file extension; unsupported extensions report an error (line 148); reader
exceptions are caught (line 151). Total: every failure is a typed result
`(none, some message)`. -/
def load_data (L : Loaders) (f : UploadedFile) : Option Dataset × Option String :=
  let ext := fileExt f
  if ext = "csv" then handleRead (L.read_csv f)
  else if ext = "xls" ∨ ext = "xlsx" then
    handleRead (L.read_excel f (if ext = "xlsx" then "openpyxl" else "xlrd"))
  else if ext = "sav" ∨ ext = "por" then
    handleRead ((L.read_sav f).map (fun p => p.1))
  else if ext = "dta" then handleRead (L.read_stata f)
  else if ext = "json" then handleRead (L.read_json f)
  else (none, some ("Unsupported file format: " ++ pyUpper ext))

/-- `MODEL_SYNTAX_EXAMPLES` (src/main.py lines 11-96): the two-level template
catalog, category → example name → model-syntax text, in source order. Each
text is the verbatim Python triple-quoted literal (note the leading and
trailing newline each such literal carries). -/
def MODEL_SYNTAX_EXAMPLES : List (String × List (String × String)) :=
  [("Cross-Sectional Models",
    [("Simple Mediation Model",
      "\n# Simple Mediation Model\nMediator ~ IndependentVariable\nDependentVariable ~ Mediator + IndependentVariable\n"),
     ("Full Mediation Model",
      "\n# Full Mediation Model\nMediator ~ IndependentVariable\nDependentVariable ~ Mediator\nIndependentVariable ~~ Mediator\n"),
     ("Confirmatory Factor Analysis",
      "\n# Confirmatory Factor Analysis\nFactor1 =~ Indicator1 + Indicator2 + Indicator3\nFactor2 =~ Indicator4 + Indicator5 + Indicator6\nFactor1 ~~ Factor2\n")]),
   ("Longitudinal Models",
    [("Cross-Lagged Panel Model",
      "\n# Cross-Lagged Panel Model\nY1 ~ X0\nX1 ~ Y0\nY2 ~ Y1 + X1\nX2 ~ X1 + Y1\n"),
     ("Latent Growth Curve Model",
      "\n# Latent Growth Curve Model\nIntercept =~ 1*Y1 + 1*Y2 + 1*Y3\nSlope =~ 0*Y1 + 1*Y2 + 2*Y3\nY1 ~ Intercept + 0*Slope\nY2 ~ Intercept + 1*Slope\nY3 ~ Intercept + 2*Slope\n")]),
   ("Multi-Group Models",
    [("Measurement Invariance",
      "\n# Measurement Invariance\nFactor1 =~ Indicator1 + Indicator2 + Indicator3\nFactor2 =~ Indicator4 + Indicator5 + Indicator6\n# Invariant across groups\nFactor1 ~~ Factor2\n"),
     ("Structural Multi-Group Model",
      "\n# Structural Multi-Group Model\nMediator ~ IndependentVariable\nDependentVariable ~ Mediator + IndependentVariable\nMediator ~~ IndependentVariable\n# Constraints across groups\nMediator ~~ IndependentVariable @1\nDependentVariable ~~ Mediator @1\n")]),
   ("Advanced Models",
    [("Mediation with Moderation",
      "\n# Mediation with Moderation\nMediator ~ IndependentVariable + Moderator\nDependentVariable ~ Mediator + IndependentVariable + Moderator + IndependentVariable*Moderator\nIndependentVariable ~~ Moderator\n"),
     ("Higher-Order Factor Model",
      "\n# Higher-Order Factor Model\nFactor1 =~ Indicator1 + Indicator2 + Indicator3\nFactor2 =~ Indicator4 + Indicator5 + Indicator6\nHigherOrderFactor =~ Factor1 + Factor2\nHigherOrderFactor ~~ HigherOrderFactor\n"),
     ("Latent Interaction Model",
      "\n# Latent Interaction Model\nFactorA =~ X1 + X2 + X3\nFactorB =~ Y1 + Y2 + Y3\nInteraction =~ FactorA * FactorB\nDependentVariable ~ Interaction + FactorA + FactorB\n"),
     ("Bifactor Model",
      "\n# Bifactor Model\nGeneralFactor =~ X1 + X2 + X3 + X4 + X5\nSpecificFactor1 =~ X1 + X2 + X3\nSpecificFactor2 =~ X4 + X5\nGeneralFactor ~~ SpecificFactor1 + SpecificFactor2\nSpecificFactor1 ~~ SpecificFactor2\n")])]

/-- Python `MODEL_SYNTAX_EXAMPLES[category][example]` as a partial lookup:
`none` models the `KeyError` a non-catalog key would raise (unreachable
through the UI, whose pickers only offer catalog keys). -/
def lookupTemplate (category ex : String) : Option String :=
  match MODEL_SYNTAX_EXAMPLES.find? (fun p => p.1 == category) with
  | none => none
  | some cat => (cat.2.find? (fun p => p.1 == ex)).map (fun p => p.2)

/-- `st.session_state` as the code uses it: the single key `model_syntax`
(`none` when the key is not yet registered). -/
structure SessionState where
  modelSyntaxBuffer : Option String
deriving DecidableEq

/-- One user interaction, i.e. the widget values present when the script
reruns: the upload-widget value, the two picker values, and which (if any)
button was the trigger of this rerun. -/
structure Interaction where
  uploaded : Option UploadedFile
  category : String
  exampleName : String
  loadClicked : Bool
  runClicked : Bool

/-- What one script execution renders, by channel: `st.info` texts,
`st.error` texts, `st.sidebar.error` texts, the fit display (the APA
statistics text and the formatted parameter table) when a run succeeded,
and whether the script aborted with an uncaught exception. -/
structure Output where
  info : List String
  errors : List String
  sidebarErrors : List String
  fitDisplay : Option (String × DataFrame)
  crashed : Bool
deriving DecidableEq

/-- The all-empty rendering. -/
def emptyOutput : Output :=
  { info := [], errors := [], sidebarErrors := [], fitDisplay := none, crashed := false }

/-- What the engine hands back on success (collapsing
`Model(...)`, `model.fit(data)`, `inspect(model)` and
`model.inspect().reset_index()` into one black-box call): the statistics
dict and the raw parameter table (index column already reset into it). -/
structure EngineOut where
  stats : List (String × StatValue)
  params : DataFrame

/-- The fitting engine as a black box: specification text and dataset in,
`EngineOut` or a raised exception out. -/
def Engine : Type := String → Dataset → Except String EngineOut

/-- `main` (src/main.py lines 155-277), as one rerun of the script over the
current session state and interaction: returns the new session state, the
rendered output, and how many times the fitting engine was invoked. -/
def mainRerun (L : Loaders) (eng : Engine) (s0 : SessionState) (i : Interaction) :
    SessionState × Output × ℕ :=
  match i.uploaded with
  | none =>
      (s0, { emptyOutput with
        info := ["Awaiting data file to be uploaded. Supported formats: CSV, Excel (XLS/XLSX), SPSS (SAV), Stata (DTA), JSON."] }, 0)
  | some f =>
    match load_data L f with
    | (none, err) => (s0, { emptyOutput with errors := err.toList }, 0)
    | (some data, _) =>
      let step1 : Option SessionState :=
        if i.exampleName = "" then some s0
        else match lookupTemplate i.category i.exampleName with
          | none => none
          | some tx =>
              some (if i.loadClicked then { modelSyntaxBuffer := some (pyStrip tx) } else s0)
      match step1 with
      | none => (s0, { emptyOutput with crashed := true }, 0)
      | some s1 =>
        let buffer := s1.modelSyntaxBuffer.getD ""
        let s2 : SessionState := { modelSyntaxBuffer := some buffer }
        if i.runClicked then
          if pyStrip buffer = "" then
            (s2, { emptyOutput with
              sidebarErrors := ["Please define the model syntax before running SEM."] }, 0)
          else
            match eng buffer data with
            | .error e =>
                (s2, { emptyOutput with
                  errors := ["An error occurred while running SEM: " ++ e] }, 1)
            | .ok out =>
                (s2, { emptyOutput with
                  fitDisplay := some (format_apa_statistics out.stats,
                    formatParams (normalizeParams out.params)) }, 1)
        else (s2, emptyOutput, 0)

/-- The user typing `t` into the keyed model-syntax text area: Streamlit
writes the widget value to `st.session_state` before the next rerun. -/
def edit (t : String) (_s : SessionState) : SessionState :=
  { modelSyntaxBuffer := some t }

/-- A concrete dataset used to instantiate the external collaborators. -/
def stubDataset : Dataset := { columns := ["IndependentVariable", "Mediator", "DependentVariable"] }

/-- Loaders whose readers all succeed with `stubDataset`. -/
def stubLoaders : Loaders :=
  { read_csv := fun _ => .ok stubDataset
    read_excel := fun _ _ => .ok stubDataset
    read_sav := fun _ => .ok (stubDataset, "meta")
    read_stata := fun _ => .ok stubDataset
    read_json := fun _ => .ok stubDataset }

/-- An engine invocation that succeeds, with an empty statistics dict and a
four-column raw parameter table. -/
def engOK : Engine := fun _ _ =>
  .ok { stats := [], params := { header := ["index", "lval", "op", "rval"], rows := [] } }

/-- An engine invocation that raises. -/
def engFail : Engine := fun _ _ => .error "singular covariance matrix"

/-- A concrete CSV upload. -/
def fileCsv : UploadedFile := { name := "data.csv", content := "a,b\n1,2\n" }

/-- Helper: when the load-template button is not the trigger, a rerun leaves
the registered buffer text unchanged (every control path writes back the
text-area value, which is the stored one). -/
theorem mainRerun_preserves_buffer (L : Loaders) (eng : Engine) (s : SessionState)
    (i : Interaction) (t : String) (hl : i.loadClicked = false)
    (hs : s.modelSyntaxBuffer = some t) :
    ((mainRerun L eng s i).1).modelSyntaxBuffer = some t := by
  obtain ⟨ou, c, e, lc, rc⟩ := i
  simp only at hl
  subst hl
  cases ou with
  | none => simpa [mainRerun] using hs
  | some f =>
    rcases hld : load_data L f with ⟨od, oe⟩
    cases od with
    | none => simpa [mainRerun, hld] using hs
    | some data =>
      by_cases he : e = ""
      · subst he
        cases rc with
        | false => simp [mainRerun, hld, hs]
        | true =>
          simp [mainRerun, hld, hs]
          split
          · rfl
          · split <;> rfl
      · cases hc : lookupTemplate c e with
        | none => simpa [mainRerun, hld, he, hc] using hs
        | some tx =>
          cases rc with
          | false => simp [mainRerun, hld, he, hc, hs]
          | true =>
            simp [mainRerun, hld, he, hc, hs]
            split
            · rfl
            · split <;> rfl

/-- Helper: a rerun whose trigger is not the run button renders no fit
display (the results exist only inside the run-button branch). -/
theorem mainRerun_no_display (L : Loaders) (eng : Engine) (s : SessionState)
    (i : Interaction) (hr : i.runClicked = false) :
    (mainRerun L eng s i).2.1.fitDisplay = none := by
  obtain ⟨ou, c, e, lc, rc⟩ := i
  simp only at hr
  subst hr
  cases ou with
  | none => simp [mainRerun, emptyOutput]
  | some f =>
    rcases hld : load_data L f with ⟨od, oe⟩
    cases od with
    | none => simp [mainRerun, hld, emptyOutput]
    | some data =>
      by_cases he : e = ""
      · simp [mainRerun, hld, he, emptyOutput]
      · cases hc : lookupTemplate c e with
        | none => simp [mainRerun, hld, he, hc, emptyOutput]
        | some tx => simp [mainRerun, hld, he, hc, emptyOutput]

/-- Helper: pressing the load-template button with a catalog key sets the
buffer to the stripped catalog text, whatever the previous state was. -/
theorem mainRerun_load_sets (L : Loaders) (eng : Engine) (s : SessionState)
    (c e tx : String) (f : UploadedFile) (d : Dataset) (oe : Option String)
    (hc : lookupTemplate c e = some tx) (he : e ≠ "")
    (hld : load_data L f = (some d, oe)) :
    (mainRerun L eng s ⟨some f, c, e, true, false⟩).1 = ⟨some (pyStrip tx)⟩ := by
  simp [mainRerun, hld, he, hc]

/-- Claim C1 (corrected). The code has no Session Store for fit results:
`st.session_state` holds only the `model_syntax` buffer; the rendered fit
result exists only inside the run-button branch. What does hold: (a) a rerun
whose trigger is not the run button displays no fit result (the previous
result is lost from view, nothing having been stored); (b) the only
persisted state, the buffer, is left untouched by any rerun that is not a
load-template trigger — in particular by a failed re-run (EngineError). -/
theorem claim_C1 (L : Loaders) (eng : Engine) (s : SessionState) (i : Interaction) :
    (i.runClicked = false → (mainRerun L eng s i).2.1.fitDisplay = none)
    ∧ (∀ t, i.loadClicked = false → s.modelSyntaxBuffer = some t →
        ((mainRerun L eng s i).1).modelSyntaxBuffer = some t) :=
  ⟨fun hr => mainRerun_no_display L eng s i hr,
   fun t hl hs => mainRerun_preserves_buffer L eng s i t hl hs⟩

/-- Witness for C1 at concrete inputs: an idle rerun displays nothing, and a
rerun over a failing engine keeps the buffer. -/
theorem claim_C1_witness :
    (mainRerun stubLoaders engOK ⟨some "Y ~ X"⟩
        ⟨some fileCsv, "Cross-Sectional Models", "Simple Mediation Model", false, false⟩).2.1.fitDisplay = none
    ∧ ((mainRerun stubLoaders engFail ⟨some "Y ~ X"⟩
        ⟨some fileCsv, "Cross-Sectional Models", "Simple Mediation Model", false, true⟩).1).modelSyntaxBuffer
        = some "Y ~ X" :=
  ⟨(claim_C1 stubLoaders engOK ⟨some "Y ~ X"⟩
      ⟨some fileCsv, "Cross-Sectional Models", "Simple Mediation Model", false, false⟩).1 rfl,
   (claim_C1 stubLoaders engFail ⟨some "Y ~ X"⟩
      ⟨some fileCsv, "Cross-Sectional Models", "Simple Mediation Model", false, true⟩).2
      "Y ~ X" rfl rfl⟩

/-- Counterexample to C1 as stated: after a successful run (the fit display
is shown), the very next rerun without a run trigger shows no stored result
— the last successful FitResult is not persisted across reconstructions. -/
theorem claim_C1_counterexample :
    ((mainRerun stubLoaders engOK ⟨some "Y ~ X"⟩
        ⟨some fileCsv, "Cross-Sectional Models", "Simple Mediation Model", false, true⟩).2.1.fitDisplay ≠ none)
    ∧ (mainRerun stubLoaders engOK
        ((mainRerun stubLoaders engOK ⟨some "Y ~ X"⟩
          ⟨some fileCsv, "Cross-Sectional Models", "Simple Mediation Model", false, true⟩).1)
        ⟨some fileCsv, "Cross-Sectional Models", "Simple Mediation Model", false, false⟩).2.1.fitDisplay = none := by
  constructor
  · decide
  · decide

/-- Claim C2 (corrected). `format_apa_statistics` has no alias table: each
canonical statistic is resolved through exactly one source spelling
(`Chi-square`, `df`, `p-value`, `CFI`, `TLI`, `RMSEA`, `RMSEA Lower`,
`RMSEA Upper`); any dict whose keys do not include a canonical spelling
renders that statistic as `N/A`, and under the canonical spellings the
claim's values 12.345, 4, 0.015 render as `12.35`, `4`, `0.015` (the float
literals entering as their IEEE-754 doubles, `12.345` being
`6949617174986097 / 2 ^ 49` and `0.015` being `1080863910568919 / 2 ^ 56`,
exactly as in the program). -/
theorem claim_C2 (d : List (String × StatValue)) :
    (d.find? (fun p => p.1 == "Chi-square") = none → statChiSq d = "N/A")
    ∧ (d.find? (fun p => p.1 == "df") = none → statDf d = "N/A")
    ∧ (d.find? (fun p => p.1 == "p-value") = none → statPVal d = "N/A")
    ∧ format_apa_statistics
        [("Chi-square", .float (mkRat 6949617174986097 562949953421312)), ("df", .int 4),
         ("p-value", .float (mkRat 1080863910568919 72057594037927936))]
      = "Chi-square: 12.35, df = 4, p = 0.015\nCFI: N/A\nTLI: N/A\nRMSEA: N/A (90% CI N/A - N/A)\n" := by
  refine ⟨fun h => ?_, fun h => ?_, fun h => ?_, by decide⟩
  · simp [statChiSq, dictGet, h, safe_format]
  · simp [statDf, dictGet, h, safe_format]
  · simp [statPVal, dictGet, h, safe_format]

/-- Witness for C2 at the empty dict: all three statistics degrade to N/A. -/
theorem claim_C2_witness :
    statChiSq [] = "N/A" ∧ statDf [] = "N/A" ∧ statPVal [] = "N/A" :=
  ⟨(claim_C2 []).1 rfl, (claim_C2 []).2.1 rfl, (claim_C2 []).2.2.1 rfl⟩

/-- Counterexample to C2 as stated: the spec scenario input keyed
`Chi2`/`DoF`/`PValue` (float literals entering as their IEEE-754 doubles)
renders every statistic as `N/A` — not as `12.35`/`4`/`0.015` — because no
alias resolution exists. -/
theorem claim_C2_counterexample :
    statChiSq [("Chi2", .float (mkRat 6949617174986097 562949953421312)), ("DoF", .int 4),
        ("PValue", .float (mkRat 1080863910568919 72057594037927936))] = "N/A"
    ∧ statDf [("Chi2", .float (mkRat 6949617174986097 562949953421312)), ("DoF", .int 4),
        ("PValue", .float (mkRat 1080863910568919 72057594037927936))] = "N/A"
    ∧ statPVal [("Chi2", .float (mkRat 6949617174986097 562949953421312)), ("DoF", .int 4),
        ("PValue", .float (mkRat 1080863910568919 72057594037927936))] = "N/A"
    ∧ format_apa_statistics [("Chi2", .float (mkRat 6949617174986097 562949953421312)), ("DoF", .int 4),
        ("PValue", .float (mkRat 1080863910568919 72057594037927936))]
      = "Chi-square: N/A, df = N/A, p = N/A\nCFI: N/A\nTLI: N/A\nRMSEA: N/A (90% CI N/A - N/A)\n" := by
  refine ⟨by decide, by decide, by decide, by decide⟩

/-- Claim C3 (confirmed). Non-clobbering: typing `t` into the buffer and
then rerunning with any picker values, without the load-template trigger,
leaves the buffer equal to `t`; only the load action can replace it. -/
theorem claim_C3 (L : Loaders) (eng : Engine) (t : String) (s : SessionState)
    (i : Interaction) (hl : i.loadClicked = false) :
    ((mainRerun L eng (edit t s) i).1).modelSyntaxBuffer = some t :=
  mainRerun_preserves_buffer L eng (edit t s) i t hl rfl

/-- Witness for C3: a concrete edit survives a rerun with changed pickers. -/
theorem claim_C3_witness :
    ((mainRerun stubLoaders engOK (edit "Y ~ X" ⟨none⟩)
        ⟨some fileCsv, "Advanced Models", "Bifactor Model", false, false⟩).1).modelSyntaxBuffer
      = some "Y ~ X" :=
  claim_C3 stubLoaders engOK "Y ~ X" ⟨none⟩
    ⟨some fileCsv, "Advanced Models", "Bifactor Model", false, false⟩ rfl

/-- Claim C4 (corrected). There is no `NoDataset` failure: the run button is
only rendered when a dataset is present, so a run trigger with an absent
dataset does not exist and an absent-dataset rerun reports nothing and never
calls the engine. What holds for an actual user-triggered run (dataset
loaded): a specification blank after trimming is rejected with an inline
sidebar error, no engine call, and no session-state change beyond the text
widget re-registering its current value; otherwise the engine is invoked
exactly once and any exception it raises is caught and reported with the
engine's message, never propagated. -/
theorem claim_C4 (L : Loaders) (eng : Engine) (s : SessionState) (f : UploadedFile)
    (data : Dataset) (oe : Option String) (c : String)
    (hld : load_data L f = (some data, oe)) :
    (pyStrip (s.modelSyntaxBuffer.getD "") = "" →
      mainRerun L eng s ⟨some f, c, "", false, true⟩
        = ({ modelSyntaxBuffer := some (s.modelSyntaxBuffer.getD "") },
           { emptyOutput with
             sidebarErrors := ["Please define the model syntax before running SEM."] }, 0))
    ∧ (pyStrip (s.modelSyntaxBuffer.getD "") ≠ "" →
        (mainRerun L eng s ⟨some f, c, "", false, true⟩).2.2 = 1
        ∧ ∀ m, eng (s.modelSyntaxBuffer.getD "") data = .error m →
            mainRerun L eng s ⟨some f, c, "", false, true⟩
              = ({ modelSyntaxBuffer := some (s.modelSyntaxBuffer.getD "") },
                 { emptyOutput with
                   errors := ["An error occurred while running SEM: " ++ m] }, 1))
    ∧ (∀ (s' : SessionState) (i' : Interaction), i'.uploaded = none →
        mainRerun L eng s' i'
          = (s', { emptyOutput with
              info := ["Awaiting data file to be uploaded. Supported formats: CSV, Excel (XLS/XLSX), SPSS (SAV), Stata (DTA), JSON."] }, 0)) := by
  refine ⟨fun hb => ?_, fun hb => ⟨?_, fun m hm => ?_⟩, fun s' i' hu => ?_⟩
  · simp [mainRerun, hld, hb]
  · cases hE : eng (s.modelSyntaxBuffer.getD "") data with
    | error m => simp [mainRerun, hld, hb, hE]
    | ok out => simp [mainRerun, hld, hb, hE]
  · simp [mainRerun, hld, hb, hm]
  · obtain ⟨ou, c', e', lc', rc'⟩ := i'
    simp only at hu
    subst hu
    simp [mainRerun]

/-- Witness for C4: blank-spec rejection with no engine call, and a caught
engine error reported with its message. -/
theorem claim_C4_witness :
    mainRerun stubLoaders engFail ⟨some "   "⟩ ⟨some fileCsv, "x", "", false, true⟩
      = ({ modelSyntaxBuffer := some "   " },
         { emptyOutput with
           sidebarErrors := ["Please define the model syntax before running SEM."] }, 0)
    ∧ mainRerun stubLoaders engFail ⟨some "Y ~ X"⟩ ⟨some fileCsv, "x", "", false, true⟩
      = ({ modelSyntaxBuffer := some "Y ~ X" },
         { emptyOutput with
           errors := ["An error occurred while running SEM: singular covariance matrix"] }, 1) :=
  ⟨(claim_C4 stubLoaders engFail ⟨some "   "⟩ fileCsv stubDataset none "x" (by decide)).1
      (by decide),
   ((claim_C4 stubLoaders engFail ⟨some "Y ~ X"⟩ fileCsv stubDataset none "x" (by decide)).2.1
      (by decide)).2 "singular covariance matrix" rfl⟩

/-- Counterexample to C4 as stated: with the dataset absent and the run
trigger set, the rerun produces no `NoDataset` failure of any kind — no
error, no sidebar error — and performs no engine call; the precondition
"absent dataset yields a NoDataset failure" describes no code path. -/
theorem claim_C4_counterexample :
    (mainRerun stubLoaders engOK ⟨some "Y ~ X"⟩ ⟨none, "", "", false, true⟩).2.1.errors = []
    ∧ (mainRerun stubLoaders engOK ⟨some "Y ~ X"⟩ ⟨none, "", "", false, true⟩).2.1.sidebarErrors = []
    ∧ (mainRerun stubLoaders engOK ⟨some "Y ~ X"⟩ ⟨none, "", "", false, true⟩).2.2 = 0 := by
  refine ⟨by decide, by decide, by decide⟩

/-- Claim C5 (corrected). `load_data` dispatches case-insensitively on the
extension over exactly the tags csv, xls, xlsx, sav, por, dta, json — `txt`
and `sas7bdat` are NOT supported and fall to the explicit unsupported-format
failure — and it never raises: a reader exception is caught into
`(none, error message)` and every other outcome is a typed result. -/
theorem claim_C5 (L : Loaders) (f : UploadedFile) :
    (fileExt f = "csv" → load_data L f = handleRead (L.read_csv f))
    ∧ (fileExt f = "xls" ∨ fileExt f = "xlsx" →
        load_data L f = handleRead (L.read_excel f (if fileExt f = "xlsx" then "openpyxl" else "xlrd")))
    ∧ (fileExt f = "sav" ∨ fileExt f = "por" →
        load_data L f = handleRead ((L.read_sav f).map (fun p => p.1)))
    ∧ (fileExt f = "dta" → load_data L f = handleRead (L.read_stata f))
    ∧ (fileExt f = "json" → load_data L f = handleRead (L.read_json f))
    ∧ (fileExt f ∉ ["csv", "xls", "xlsx", "sav", "por", "dta", "json"] →
        load_data L f = (none, some ("Unsupported file format: " ++ pyUpper (fileExt f))))
    ∧ (∀ d, handleRead (.ok d) = (some d, none))
    ∧ (∀ e, handleRead (.error e) = (none, some ("Error loading data: " ++ e))) := by
  refine ⟨fun h => ?_, fun h => ?_, fun h => ?_, fun h => ?_, fun h => ?_, fun h => ?_,
    fun d => rfl, fun e => rfl⟩
  · simp [load_data, h]
  · rcases h with h | h <;> simp [load_data, h]
  · rcases h with h | h <;> simp [load_data, h]
  · simp [load_data, h]
  · simp [load_data, h]
  · have h1 : fileExt f ≠ "csv" := fun hx => h (by simp [hx])
    have h2 : fileExt f ≠ "xls" := fun hx => h (by simp [hx])
    have h3 : fileExt f ≠ "xlsx" := fun hx => h (by simp [hx])
    have h4 : fileExt f ≠ "sav" := fun hx => h (by simp [hx])
    have h5 : fileExt f ≠ "por" := fun hx => h (by simp [hx])
    have h6 : fileExt f ≠ "dta" := fun hx => h (by simp [hx])
    have h7 : fileExt f ≠ "json" := fun hx => h (by simp [hx])
    simp [load_data, h1, h2, h3, h4, h5, h6, h7]

/-- Witness for C5: the dispatch at concrete files, including a mixed-case
name routed case-insensitively to the CSV reader. -/
theorem claim_C5_witness :
    load_data stubLoaders ⟨"Data.CSV", ""⟩ = handleRead (stubLoaders.read_csv ⟨"Data.CSV", ""⟩)
    ∧ load_data stubLoaders ⟨"a.parquet", ""⟩
      = (none, some ("Unsupported file format: " ++ pyUpper (fileExt ⟨"a.parquet", ""⟩))) :=
  ⟨(claim_C5 stubLoaders ⟨"Data.CSV", ""⟩).1 (by decide),
   (claim_C5 stubLoaders ⟨"a.parquet", ""⟩).2.2.2.2.2.1 (by decide)⟩

/-- Counterexample to C5 as stated: `txt` and `sas7bdat` uploads are not
dispatched to any reader — both hit the unsupported-format failure. -/
theorem claim_C5_counterexample :
    load_data stubLoaders ⟨"data.txt", ""⟩ = (none, some "Unsupported file format: TXT")
    ∧ load_data stubLoaders ⟨"data.sas7bdat", ""⟩
      = (none, some "Unsupported file format: SAS7BDAT") := by
  refine ⟨by decide, by decide⟩

/-- Helper: `fracDigitsPadded d m` always has exactly `d` characters. -/
theorem fracDigitsPadded_length (d : ℕ) : ∀ m, (fracDigitsPadded d m).length = d := by
  induction d with
  | zero => intro m; rfl
  | succ k ih => intro m; simp [fracDigitsPadded, ih]

/-- Claim C6 (confirmed). For every rectangular raw parameter table, the
normalization pass yields exactly the seven canonical columns, truncating
extras or padding missing ones with the `N/A` marker, and every row of the
result has exactly seven cells. -/
theorem claim_C6 (df : DataFrame) (hrect : ∀ r ∈ df.rows, r.length = df.header.length) :
    (normalizeParams df).header = expected_columns
    ∧ ∀ r ∈ (normalizeParams df).rows, r.length = 7 := by
  constructor
  · unfold normalizeParams
    split
    · rfl
    · split <;> rfl
  · intro r hr
    unfold normalizeParams at hr
    by_cases h1 : df.header.length = expected_columns.length
    · rw [if_pos h1] at hr
      simp only at hr
      rw [hrect r hr, h1]
      rfl
    · rw [if_neg h1] at hr
      by_cases h2 : df.header.length > expected_columns.length
      · rw [if_pos h2] at hr
        simp only [List.mem_map] at hr
        obtain ⟨a, ha, rfl⟩ := hr
        rw [List.length_take, hrect a ha]
        have h7 : expected_columns.length = 7 := rfl
        rw [h7] at h2 ⊢
        exact Nat.min_eq_left (Nat.le_of_lt h2)
      · rw [if_neg h2] at hr
        simp only [List.mem_map] at hr
        obtain ⟨a, ha, rfl⟩ := hr
        rw [List.length_append, List.length_replicate, hrect a ha]
        have hle : df.header.length ≤ expected_columns.length := Nat.le_of_not_lt h2
        have h7 : expected_columns.length = 7 := rfl
        rw [h7] at hle ⊢
        omega

/-- Witness for C6 at a concrete two-column raw table: the result has the
canonical header and its (padded) row has seven cells. -/
theorem claim_C6_witness :
    (normalizeParams ⟨["index", "Est"], [[.str "x ~ y", .float (mkRat 1 2)]]⟩).header
      = expected_columns
    ∧ [StatValue.str "x ~ y", .float (mkRat 1 2), .str "N/A", .str "N/A", .str "N/A",
        .str "N/A", .str "N/A"].length = 7 :=
  ⟨(claim_C6 ⟨["index", "Est"], [[.str "x ~ y", .float (mkRat 1 2)]]⟩ (by decide)).1,
   (claim_C6 ⟨["index", "Est"], [[.str "x ~ y", .float (mkRat 1 2)]]⟩ (by decide)).2
     [StatValue.str "x ~ y", .float (mkRat 1 2), .str "N/A", .str "N/A", .str "N/A",
        .str "N/A", .str "N/A"] (by decide)⟩

/-- Claim C7 (corrected). In the formatting pass over the six
estimate/error/statistic/bound columns, every finite numeric cell (int or
finite float) is rendered with exactly three decimal places and every
string cell passes through unchanged, and the pass is a total function (the
Python exception path is the `.error` branch of `tryFormat3`, always caught
by `safe_param_format`); but a non-finite float — numeric for the program —
is rendered as `nan` / `inf` / `-inf`, which is neither a three-decimal
string nor the cell unchanged, so the claim's universal holds only for the
finite numeric values. -/
theorem claim_C7 (q : ℚ) (n : ℤ) (s : String) (hdr : List String) (row : List StatValue) :
    safe_param_format (.float q) = .str (pyFormatFixed q 3)
    ∧ safe_param_format (.int n) = .str (pyFormatFixed (n : ℚ) 3)
    ∧ safe_param_format (.str s) = .str s
    ∧ (∃ pre fr, pyFormatFixed q 3 = pre ++ "." ++ fr ∧ fr.length = 3)
    ∧ safe_param_format .nan = .str "nan"
    ∧ safe_param_format (.inf false) = .str "inf"
    ∧ safe_param_format (.inf true) = .str "-inf"
    ∧ formatParams ⟨hdr, [row]⟩ = ⟨hdr, [formatRow hdr row]⟩
    ∧ formatRow hdr row
        = (hdr.zip row).map
            (fun p => if numericCols.contains p.1 then safe_param_format p.2 else p.2) := by
  refine ⟨rfl, rfl, rfl, ?_, rfl, rfl, rfl, rfl, rfl⟩
  refine ⟨(if q.num < 0 then "-" else "") ++ toString (scaledNat q 3 / 10 ^ 3),
          String.mk (fracDigitsPadded 3 (scaledNat q 3 % 10 ^ 3)), ?_, ?_⟩
  · unfold pyFormatFixed
    simp [String.append_assoc]
  · show (String.mk (fracDigitsPadded 3 (scaledNat q 3 % 10 ^ 3))).length = 3
    have : (String.mk (fracDigitsPadded 3 (scaledNat q 3 % 10 ^ 3))).length
        = (fracDigitsPadded 3 (scaledNat q 3 % 10 ^ 3)).length := rfl
    rw [this, fracDigitsPadded_length]

/-- Counterexample to C7 as stated: a NaN cell is numeric for the program
(`isinstance(float("nan"), float)` holds), yet the formatting pass renders
it as the string `nan`, which contains no decimal point at all — not a
three-decimal rendering — and is not the cell passed through unchanged;
likewise an infinite cell becomes `inf`. -/
theorem claim_C7_counterexample :
    safe_param_format StatValue.nan = .str "nan"
    ∧ "nan".data.contains (Char.ofNat 46) = false
    ∧ safe_param_format (StatValue.inf false) = .str "inf" := by
  refine ⟨rfl, by decide, rfl⟩

/-- Claim C8 (confirmed). The statistics pass is a total function (never
raises); a canonical statistic whose key is absent resolves to the `N/A`
marker, and the rendered text is assembled from the eight independently
resolved statistics, so the present ones still render correctly — at the
concrete mapping missing both RMSEA bounds, chi-square/df/p-value render
and both bounds show N/A. -/
theorem claim_C8 (d : List (String × StatValue)) :
    (d.find? (fun p => p.1 == "RMSEA Lower") = none → statRMSEALower d = "N/A")
    ∧ (d.find? (fun p => p.1 == "RMSEA Upper") = none → statRMSEAUpper d = "N/A")
    ∧ format_apa_statistics d
        = "Chi-square: " ++ statChiSq d ++ ", df = " ++ statDf d ++ ", p = " ++ statPVal d ++ "\n" ++
          "CFI: " ++ statCFI d ++ "\n" ++
          "TLI: " ++ statTLI d ++ "\n" ++
          "RMSEA: " ++ statRMSEA d ++ " (90% CI " ++ statRMSEALower d ++ " - " ++ statRMSEAUpper d ++ ")\n"
    ∧ format_apa_statistics
        [("Chi-square", .float (mkRat 12345 100)), ("df", .int 5), ("p-value", .float (mkRat 12 1000))]
      = "Chi-square: 123.45, df = 5, p = 0.012\nCFI: N/A\nTLI: N/A\nRMSEA: N/A (90% CI N/A - N/A)\n" := by
  refine ⟨fun h => ?_, fun h => ?_, rfl, by decide⟩
  · simp [statRMSEALower, dictGet, h, safe_format]
  · simp [statRMSEAUpper, dictGet, h, safe_format]

/-- Witness for C8 at the empty mapping: both RMSEA bounds degrade to N/A. -/
theorem claim_C8_witness :
    statRMSEALower [] = "N/A" ∧ statRMSEAUpper [] = "N/A" :=
  ⟨(claim_C8 []).1 rfl, (claim_C8 []).2.1 rfl⟩

/-- Claim C9 (confirmed). Loading the same catalog template twice in a row
(no edit in between) leaves the session state — hence the buffer text —
exactly as after loading it once: both applications set the buffer to the
stripped catalog text. -/
theorem claim_C9 (L : Loaders) (eng : Engine) (s : SessionState) (c e tx : String)
    (f : UploadedFile) (d : Dataset) (oe : Option String)
    (hc : lookupTemplate c e = some tx) (he : e ≠ "")
    (hld : load_data L f = (some d, oe)) :
    (mainRerun L eng ((mainRerun L eng s ⟨some f, c, e, true, false⟩).1)
        ⟨some f, c, e, true, false⟩).1
      = (mainRerun L eng s ⟨some f, c, e, true, false⟩).1 := by
  rw [mainRerun_load_sets L eng s c e tx f d oe hc he hld,
      mainRerun_load_sets L eng _ c e tx f d oe hc he hld]

/-- Witness for C9 at a concrete catalog key. -/
theorem claim_C9_witness :
    (mainRerun stubLoaders engOK
        ((mainRerun stubLoaders engOK ⟨none⟩
          ⟨some fileCsv, "Longitudinal Models", "Cross-Lagged Panel Model", true, false⟩).1)
        ⟨some fileCsv, "Longitudinal Models", "Cross-Lagged Panel Model", true, false⟩).1
      = (mainRerun stubLoaders engOK ⟨none⟩
          ⟨some fileCsv, "Longitudinal Models", "Cross-Lagged Panel Model", true, false⟩).1 :=
  claim_C9 stubLoaders engOK ⟨none⟩ "Longitudinal Models" "Cross-Lagged Panel Model"
    "\n# Cross-Lagged Panel Model\nY1 ~ X0\nX1 ~ Y0\nY2 ~ Y1 + X1\nX2 ~ X1 + Y1\n"
    fileCsv stubDataset none (by decide) (by decide) (by decide)

/-- Claim C10 (confirmed). Every catalog entry begins and ends with a
newline and differs from its stripped form, and the load-template action
stores the stripped text — so the buffer after loading never equals the
stored catalog text verbatim. -/
theorem claim_C10 :
    (MODEL_SYNTAX_EXAMPLES.all (fun cat => cat.2.all (fun ex =>
        (ex.2.data.head? == some (Char.ofNat 10))
        && (ex.2.data.getLast? == some (Char.ofNat 10))
        && (pyStrip ex.2 != ex.2))) = true)
    ∧ ∀ (L : Loaders) (eng : Engine) (s : SessionState) (c e tx : String)
        (f : UploadedFile) (d : Dataset) (oe : Option String),
        lookupTemplate c e = some tx → e ≠ "" → load_data L f = (some d, oe) →
        (mainRerun L eng s ⟨some f, c, e, true, false⟩).1.modelSyntaxBuffer = some (pyStrip tx) := by
  refine ⟨by decide, fun L eng s c e tx f d oe hc he hld => ?_⟩
  rw [mainRerun_load_sets L eng s c e tx f d oe hc he hld]

/-- Witness for C10 at a concrete catalog key: the loaded buffer is the
stripped entry. -/
theorem claim_C10_witness :
    (mainRerun stubLoaders engOK ⟨none⟩
        ⟨some fileCsv, "Cross-Sectional Models", "Full Mediation Model", true, false⟩).1.modelSyntaxBuffer
      = some (pyStrip "\n# Full Mediation Model\nMediator ~ IndependentVariable\nDependentVariable ~ Mediator\nIndependentVariable ~~ Mediator\n") :=
  claim_C10.2 stubLoaders engOK ⟨none⟩ "Cross-Sectional Models" "Full Mediation Model"
    "\n# Full Mediation Model\nMediator ~ IndependentVariable\nDependentVariable ~ Mediator\nIndependentVariable ~~ Mediator\n"
    fileCsv stubDataset none (by decide) (by decide) (by decide)
